import Mathlib

/-!
Shallow embedding of the pathao-courier SDK core: the webhook
verification/parsing/dispatch pipeline (src/webhooks/verifier.ts,
src/webhooks/types.ts, src/webhooks/handler.ts) and the OAuth token
lifecycle manager (AuthService). JavaScript runtime values are modelled
by an explicit JSON value type; thrown exceptions by `Except`; the
event-emitter by an explicit list of emissions produced per request.
-/

/-- JSON-like JavaScript runtime values as seen by the webhook pipeline.
Numbers are modelled as rationals (numeric values are never inspected
beyond falsiness by the embedded code). -/
inductive JsonVal where
  | null
  | bool (b : Bool)
  | num (q : Rat)
  | str (s : String)
  | arr (elems : List JsonVal)
  | obj (fields : List (String × JsonVal))

/-- JavaScript falsiness (`!v`) for the modelled values: null (also standing
for undefined), false, 0 and the empty string are falsy. -/
def jsFalsy : JsonVal → Bool
  | .null => true
  | .bool b => !b
  | .num q => decide (q = 0)
  | .str s => s == ""
  | .arr _ => false
  | .obj _ => false

/-- JavaScript typeof v being object: true for null, arrays and objects. -/
def jsTypeofObject : JsonVal → Bool
  | .null => true
  | .arr _ => true
  | .obj _ => true
  | .bool _ => false
  | .num _ => false
  | .str _ => false

/-- Property access `v[key]` on a modelled value: a lookup in the field list of an object (objects are assumed to have unique keys, as produced by JSON
parsing); `none` models `undefined`. -/
def getProp : JsonVal → String → Option JsonVal
  | .obj fields, key => (fields.find? (fun p => p.1 == key)).map (fun p => p.2)
  | _, _ => none

/-- Error kinds of the SDK error hierarchy in src/utils/errors.ts
(PathaoAuthError, PathaoWebhookError, PathaoApiError, PathaoValidationError),
plus `generic` for arbitrary non-SDK JavaScript errors. -/
inductive ErrKind where
  | auth
  | webhook
  | api
  | validation
  | generic
deriving DecidableEq, Repr

/-- A thrown JavaScript error, reduced to the data the embedded code
inspects: its kind (for `instanceof` tests) and its message. -/
structure JsErr where
  kind : ErrKind
  message : String
deriving DecidableEq, Repr

/-- WEBHOOK_HEADERS.SIGNATURE from src/constants.ts. -/
def webhookSignatureHeader : String := "X-PATHAO-Signature"

/-- WEBHOOK_HEADERS.INTEGRATION_SECRET from src/constants.ts. -/
def integrationSecretHeader : String := "X-Pathao-Merchant-Webhook-Integration-Secret"

/-- DEFAULT_WEBHOOK_INTEGRATION_SECRET from src/constants.ts. -/
def defaultIntegrationSecret : String := "f3992ecc-59da-4cbe-a049-a13da2018d51"

/-- The XOR-accumulate loop of `timingSafeEqual` (src/webhooks/verifier.ts):
`result |= a.charCodeAt(i) ^ b.charCodeAt(i)` over all positions. The loop
runs over positions of `a`; it is only reached when both strings have the
same length, which the recursion over both lists mirrors. -/
def xorAccum : List Char → List Char → Nat
  | [], _ => 0
  | _, [] => 0
  | a :: as, b :: bs => (a.toNat ^^^ b.toNat) ||| xorAccum as bs

/-- timingSafeEqual from src/webhooks/verifier.ts: equal-length check first,
then the non-short-circuiting XOR-accumulate loop over character codes. -/
def timingSafeEqual (a b : String) : Bool :=
  if a.length != b.length then false
  else xorAccum a.data b.data == 0

/-- verifySignature from src/webhooks/verifier.ts. `none` for the signature
models an undefined/null header; `!signature` in JavaScript also treats the
empty string as missing. The payload argument is accepted but never used
(placeholder scheme: the expected signature is the webhook secret itself). -/
def verifySignature (signature : Option String) (webhookSecret : String)
    (_payload : JsonVal) : Except JsErr Bool :=
  match signature with
  | none => .error ⟨.webhook, "Missing " ++ webhookSignatureHeader ++ " header"⟩
  | some sig =>
    if sig = "" then
      .error ⟨.webhook, "Missing " ++ webhookSignatureHeader ++ " header"⟩
    else if webhookSecret = "" then
      .error ⟨.webhook, "Webhook secret is required"⟩
    else
      let expectedSignature := webhookSecret
      if !timingSafeEqual sig expectedSignature then
        .error ⟨.webhook, "Invalid webhook signature"⟩
      else
        .ok true

/-- The 21 recognized webhook event discriminators
(WEBHOOK_EVENT_TYPES in src/constants.ts). -/
def webhookEventTypes : List String :=
  ["order.created", "order.updated", "order.pickup-requested",
   "order.assigned-for-pickup", "order.picked", "order.pickup-failed",
   "order.pickup-cancelled", "order.at-the-sorting-hub", "order.in-transit",
   "order.received-at-last-mile-hub", "order.assigned-for-delivery",
   "order.delivered", "order.partial-delivery", "order.returned",
   "order.delivery-failed", "order.on-hold", "order.paid",
   "order.paid-return", "order.exchanged", "store.created", "store.updated"]

/-- parseWebhookPayload from src/webhooks/types.ts: rejects falsy and
non-object inputs, rejects a missing/falsy/non-string `event` field, then
switches the `event` string against the fixed table of 21 recognized values,
returning the input itself on a match and throwing
`Unknown webhook event type: <event>` otherwise. -/
def parseWebhookPayload (data : JsonVal) : Except JsErr JsonVal :=
  if jsFalsy data || !jsTypeofObject data then
    .error ⟨.webhook, "Invalid webhook payload: must be an object"⟩
  else
    match getProp data "event" with
    | none => .error ⟨.webhook, "Invalid webhook payload: missing or invalid event field"⟩
    | some ev =>
      if jsFalsy ev then
        .error ⟨.webhook, "Invalid webhook payload: missing or invalid event field"⟩
      else
        match ev with
        | .str s =>
          if s ∈ webhookEventTypes then .ok data
          else .error ⟨.webhook, "Unknown webhook event type: " ++ s⟩
        | _ => .error ⟨.webhook, "Invalid webhook payload: missing or invalid event field"⟩

/-- isOrderWebhook from src/webhooks/types.ts: the discriminator starts
with the order namespace. -/
def isOrderWebhook (payload : JsonVal) : Bool :=
  match getProp payload "event" with
  | some (.str s) => "order.".isPrefixOf s
  | _ => false

/-- isStoreWebhook from src/webhooks/types.ts: the discriminator starts
with the store namespace. -/
def isStoreWebhook (payload : JsonVal) : Bool :=
  match getProp payload "event" with
  | some (.str s) => "store.".isPrefixOf s
  | _ => false

/-- Result of PathaoWebhookHandler.handle: the WebhookResponse shape
status success, or status error with a message. -/
inductive WebhookResponse where
  | success
  | error (message : String)
deriving DecidableEq, Repr

/-- One event-emitter emission: a payload delivered on a channel, or an
error object delivered on a channel. Channel names are the
PathaoWebhookEvent enum values from src/constants.ts. -/
inductive Emission where
  | payload (channel : String) (p : JsonVal)
  | errObj (channel : String) (e : JsErr)

/-- PathaoWebhookEvent.WEBHOOK, the wildcard channel every parsed webhook
is emitted on. -/
def wildcardChannel : String := "WEBHOOK"

/-- PathaoWebhookEvent.ERROR, the dedicated error channel. -/
def errorChannel : String := "ERROR"

/-- The event-string to PathaoWebhookEvent channel mapping realized by the
switch in PathaoWebhookHandler.emitSpecificEvent (src/webhooks/handler.ts);
`none` models falling through the switch without emitting. -/
def specificChannel : String → Option String
  | "order.created" => some "ORDER_CREATED"
  | "order.updated" => some "ORDER_UPDATED"
  | "order.pickup-requested" => some "ORDER_PICKUP_REQUESTED"
  | "order.assigned-for-pickup" => some "ORDER_ASSIGNED_FOR_PICKUP"
  | "order.picked" => some "ORDER_PICKED"
  | "order.pickup-failed" => some "ORDER_PICKUP_FAILED"
  | "order.pickup-cancelled" => some "ORDER_PICKUP_CANCELLED"
  | "order.at-the-sorting-hub" => some "ORDER_AT_THE_SORTING_HUB"
  | "order.in-transit" => some "ORDER_IN_TRANSIT"
  | "order.received-at-last-mile-hub" => some "ORDER_RECEIVED_AT_LAST_MILE_HUB"
  | "order.assigned-for-delivery" => some "ORDER_ASSIGNED_FOR_DELIVERY"
  | "order.delivered" => some "ORDER_DELIVERED"
  | "order.partial-delivery" => some "ORDER_PARTIAL_DELIVERY"
  | "order.returned" => some "ORDER_RETURNED"
  | "order.delivery-failed" => some "ORDER_DELIVERY_FAILED"
  | "order.on-hold" => some "ORDER_ON_HOLD"
  | "order.paid" => some "ORDER_PAID"
  | "order.paid-return" => some "ORDER_PAID_RETURN"
  | "order.exchanged" => some "ORDER_EXCHANGED"
  | "store.created" => some "STORE_CREATED"
  | "store.updated" => some "STORE_UPDATED"
  | _ => none

/-- PathaoWebhookHandler.emitSpecificEvent: switch on payload.event and emit
the typed event on the matching channel (no emission on fall-through). -/
def emitSpecificEvent (payload : JsonVal) : List Emission :=
  match getProp payload "event" with
  | some (.str s) =>
    match specificChannel s with
    | some ch => [.payload ch payload]
    | none => []
  | _ => []

/-- PathaoWebhookHandler.handle (src/webhooks/handler.ts lines 107-127):
verify the signature, parse the payload, emit on the wildcard channel then
the specific channel, and return a success result; any error thrown by the
pipeline is caught, emitted once on the error channel, and converted into
an error-status result carrying the message of the error. The returned list
records the emissions of this call in order. -/
def handle (webhookSecret : String) (body : JsonVal)
    (signatureHeader : Option String) : WebhookResponse × List Emission :=
  match verifySignature signatureHeader webhookSecret body with
  | .error e => (.error e.message, [.errObj errorChannel e])
  | .ok _ =>
    match parseWebhookPayload body with
    | .error e => (.error e.message, [.errObj errorChannel e])
    | .ok payload =>
      (.success, .payload wildcardChannel payload :: emitSpecificEvent payload)

/-- An HTTP header value as frameworks present it: a single string or an
array of strings. -/
inductive HeaderVal where
  | str (s : String)
  | arr (xs : List String)

/-- An inbound HTTP request as the framework adapters see it: a header map
(keys as looked up by the adapter, i.e. already lower-cased by the
framework) and a parsed body. -/
structure HttpRequest where
  headers : List (String × HeaderVal)
  body : JsonVal

/-- PathaoWebhookHandlerConfig: webhook secret plus optional integration
secret (`none` models the field being absent). -/
structure HandlerConfig where
  webhookSecret : String
  integrationSecret : Option String

/-- The integration secret actually used by the handler:
`config.integrationSecret || DEFAULT_WEBHOOK_INTEGRATION_SECRET`
(JavaScript `||`, so an empty configured string also falls back). -/
def resolvedIntegrationSecret (cfg : HandlerConfig) : String :=
  match cfg.integrationSecret with
  | some s => if s = "" then defaultIntegrationSecret else s
  | none => defaultIntegrationSecret

/-- Header lookup in the header map of the request. -/
def lookupHeader (hs : List (String × HeaderVal)) (key : String) : Option HeaderVal :=
  (hs.find? (fun p => p.1 == key)).map (fun p => p.2)

/-- Signature extraction shared by the express and fastify adapters:
look up the lower-cased signature header name, take the first element if
the value is an array, the value itself if a string, undefined otherwise. -/
def extractSignature (req : HttpRequest) : Option String :=
  match lookupHeader req.headers "x-pathao-signature" with
  | some (.arr xs) => xs.head?
  | some (.str s) => some s
  | none => none

/-- One action performed on the framework response object: Express-style
setHeader/status/json, or Fastify-style header/status/send. -/
inductive RespAction where
  | setHeader (name value : String)
  | headerChain (name value : String)
  | status (code : Nat)
  | jsonBody (r : WebhookResponse)
  | sendBody (r : WebhookResponse)

/-- Status-code selection of the adapters: 200 for a success result,
400 for an error result. -/
def statusCodeOf : WebhookResponse → Nat
  | .success => 200
  | .error _ => 400

/-- The Express middleware returned by PathaoWebhookHandler.express
(src/webhooks/handler.ts lines 814-843), as the ordered list of actions it
performs on the response object. `exc` models an exception escaping the
adapter body outside handle itself (handle never throws); `some e` takes
the catch branch, which sets the integration-secret header and answers
500 with a generic error body. -/
def expressAdapter (cfg : HandlerConfig) (req : HttpRequest)
    (exc : Option JsErr) : List RespAction :=
  match exc with
  | some e =>
    [.setHeader integrationSecretHeader (resolvedIntegrationSecret cfg),
     .status 500, .jsonBody (.error e.message)]
  | none =>
    let result := (handle cfg.webhookSecret req.body (extractSignature req)).1
    [.setHeader integrationSecretHeader (resolvedIntegrationSecret cfg),
     .status (statusCodeOf result), .jsonBody result]

/-- The Fastify route handler returned by PathaoWebhookHandler.fastify
(src/webhooks/handler.ts lines 855-884), as the ordered list of actions it
performs on the reply object; same structure as the Express adapter but
with Fastify-style header/send calls. -/
def fastifyAdapter (cfg : HandlerConfig) (req : HttpRequest)
    (exc : Option JsErr) : List RespAction :=
  match exc with
  | some e =>
    [.headerChain integrationSecretHeader (resolvedIntegrationSecret cfg),
     .status 500, .sendBody (.error e.message)]
  | none =>
    let result := (handle cfg.webhookSecret req.body (extractSignature req)).1
    [.headerChain integrationSecretHeader (resolvedIntegrationSecret cfg),
     .status (statusCodeOf result), .sendBody result]

/-- The status codes set on a response, in order. -/
def statusesOf (tr : List RespAction) : List Nat :=
  tr.filterMap (fun a => match a with | .status c => some c | _ => none)

/-- TokenResponse from src/types/auth: a successful grant response.
expires_in is the declared lifetime in seconds. -/
structure TokenResponse where
  access_token : String
  refresh_token : String
  expires_in : Int
deriving DecidableEq, Repr

/-- StoredToken from src/types/auth: the credential held by AuthService.
expires_at is an absolute wall-clock instant in milliseconds. -/
structure StoredToken where
  access_token : String
  refresh_token : String
  expires_at : Int
deriving DecidableEq, Repr

/-- AuthServiceConfig. The persistence callbacks are modelled as oracles:
onTokenLoad is `none` when not configured, otherwise the outcome of calling
it (a thrown error, or a stored token / null); onTokenUpdate likewise is
the outcome of invoking the persist callback. The credential fields only
feed the network request bodies, which the network oracle abstracts. -/
structure AuthConfig where
  clientId : String
  clientSecret : String
  username : String
  password : String
  baseUrl : String
  onTokenLoad : Option (Except JsErr (Option StoredToken))
  onTokenUpdate : Option (Except JsErr Unit)

/-- Environment of one getAccessToken run: the current wall-clock time in
milliseconds and the outcome of the refresh / issue network stages (fetch,
JSON decoding and the non-2xx check) should they be performed. -/
structure AuthEnv where
  now : Int
  refreshResult : Except JsErr TokenResponse
  issueResult : Except JsErr TokenResponse

/-- Credential construction after a successful grant
(`expiresAt = Date.now() + tokenResponse.expires_in * 1000`). -/
def mkStoredToken (now : Int) (resp : TokenResponse) : StoredToken :=
  { access_token := resp.access_token,
    refresh_token := resp.refresh_token,
    expires_at := now + resp.expires_in * 1000 }

/-- The catch clause of issueToken/refreshToken: rethrow a PathaoAuthError
unchanged, wrap the message of any other error into a PathaoAuthError. -/
def wrapAuth (e : JsErr) : JsErr :=
  if e.kind = ErrKind.auth then e else ⟨.auth, e.message⟩

/-- The freshness check of getAccessToken:
`this.token && this.token.expires_at > Date.now() + 5 * 60 * 1000`. -/
def tokenFresh (st : Option StoredToken) (now : Int) : Bool :=
  match st with
  | some t => decide (t.expires_at > now + 5 * 60 * 1000)
  | none => false

/-- The refresh guard of getAccessToken:
`this.token && this.token.refresh_token` (a truthy string). -/
def hasRefreshToken (st : Option StoredToken) : Bool :=
  match st with
  | some t => t.refresh_token != ""
  | none => false

/-- `this.token!.access_token`: the access token of the held credential
(empty string models the unreachable null case behind the non-null
assertion). -/
def accessOf : Option StoredToken → String
  | some t => t.access_token
  | none => ""

/-- One sequential (single-caller, free in-flight slot) run of
AuthService.issueToken, as (outcome, new held credential, network calls).
On a successful grant the credential is stored before the persist callback
runs; a throwing persist callback is caught and wrapped into an auth
error. -/
def issueRun (cfg : AuthConfig) (env : AuthEnv) (st : Option StoredToken) :
    Except JsErr StoredToken × Option StoredToken × Nat :=
  match env.issueResult with
  | .error e => (.error (wrapAuth e), st, 1)
  | .ok resp =>
    let tok := mkStoredToken env.now resp
    match cfg.onTokenUpdate with
    | some (.error e) => (.error (wrapAuth e), some tok, 1)
    | _ => (.ok tok, some tok, 1)

/-- One sequential run of AuthService.refreshToken: guard on a held refresh
token (throwing an auth error with no network call otherwise), then the
network stage and credential adoption exactly as in issueRun. -/
def refreshRun (cfg : AuthConfig) (env : AuthEnv) (st : Option StoredToken) :
    Except JsErr StoredToken × Option StoredToken × Nat :=
  match st with
  | none => (.error ⟨.auth, "No refresh token available"⟩, st, 0)
  | some t =>
    if t.refresh_token = "" then
      (.error ⟨.auth, "No refresh token available"⟩, st, 0)
    else
      match env.refreshResult with
      | .error e => (.error (wrapAuth e), st, 1)
      | .ok resp =>
        let tok := mkStoredToken env.now resp
        match cfg.onTokenUpdate with
        | some (.error e) => (.error (wrapAuth e), some tok, 1)
        | _ => (.ok tok, some tok, 1)

/-- Outcome of one getAccessToken run: the returned access token or the
propagated error, the held credential afterwards, and the number of
token-endpoint network calls performed. -/
structure AuthOutcome where
  result : Except JsErr String
  token : Option StoredToken
  networkCalls : Nat

/-- One sequential run of AuthService.getAccessToken (src/services/auth,
lines 66-91): load the credential through onTokenLoad on first use (a
throwing load callback propagates unwrapped — the call is not inside any
try block), return the held access token when the expiry is more than the
5-minute margin in the future, otherwise refresh when a refresh token is
held (falling back to a full issue if the refresh rejects), otherwise
issue. -/
def getAccessTokenRun (cfg : AuthConfig) (st0 : Option StoredToken)
    (env : AuthEnv) : AuthOutcome :=
  match (match st0, cfg.onTokenLoad with
         | none, some r => r
         | s, _ => .ok s) with
  | .error e => ⟨.error e, st0, 0⟩
  | .ok st1 =>
    if tokenFresh st1 env.now then
      ⟨.ok (accessOf st1), st1, 0⟩
    else if hasRefreshToken st1 then
      match refreshRun cfg env st1 with
      | (.ok _, st2, c) => ⟨.ok (accessOf st2), st2, c⟩
      | (.error _, st2, c) =>
        match issueRun cfg env st2 with
        | (.ok _, st3, c2) => ⟨.ok (accessOf st3), st3, c + c2⟩
        | (.error e, st3, c2) => ⟨.error e, st3, c + c2⟩
    else
      match issueRun cfg env st1 with
      | (.ok _, st2, c) => ⟨.ok (accessOf st2), st2, c⟩
      | (.error e, st2, c) => ⟨.error e, st2, c⟩

/-- The AuthService fields relevant to single-flight de-duplication: the
held credential, the in-flight-operation slot (`tokenPromise`, holding the
identity of the pending operation), the number of network calls started,
and a counter for fresh operation identities. -/
structure SvcState where
  token : Option StoredToken
  tokenPromise : Option Nat
  networkCalls : Nat
  nextId : Nat
deriving DecidableEq, Repr

/-- A freshly constructed AuthService: no credential, no pending
operation. -/
def initialSvcState : SvcState :=
  { token := none, tokenPromise := none, networkCalls := 0, nextId := 0 }

/-- The synchronous prefix of issueToken up to storing the in-flight
promise: under run-to-completion scheduling the check
`if (this.tokenPromise) return this.tokenPromise` and the assignment
`this.tokenPromise = ...` cannot interleave with another caller. Returns
the identity of the operation this caller awaits. A network call is
started only when the slot was free. -/
def issueEnter (s : SvcState) : Nat × SvcState :=
  match s.tokenPromise with
  | some p => (p, s)
  | none =>
    (s.nextId,
     { s with tokenPromise := some s.nextId,
              networkCalls := s.networkCalls + 1,
              nextId := s.nextId + 1 })

/-- The synchronous prefix of refreshToken: guard on a held refresh token,
then the same shared in-flight slot check-and-set as issueToken. -/
def refreshEnter (s : SvcState) : Except JsErr (Nat × SvcState) :=
  match s.token with
  | none => .error ⟨.auth, "No refresh token available"⟩
  | some t =>
    if t.refresh_token = "" then
      .error ⟨.auth, "No refresh token available"⟩
    else
      match s.tokenPromise with
      | some p => .ok (p, s)
      | none =>
        .ok (s.nextId,
             { s with tokenPromise := some s.nextId,
                      networkCalls := s.networkCalls + 1,
                      nextId := s.nextId + 1 })

/-- Settlement of the in-flight operation: the `finally` clause clears the
slot whatever the outcome; a successful outcome has adopted the new
credential. -/
def settleOp (s : SvcState) (outcome : Except JsErr StoredToken) : SvcState :=
  { s with tokenPromise := none,
           token := match outcome with | .ok t => some t | .error _ => s.token }

/-- N concurrent callers reaching issueToken while the operation is in
flight: each performs its atomic check-and-set in arrival order. Returns
the operation identity each caller awaits and the final state. -/
def concurrentIssue : Nat → SvcState → List Nat × SvcState
  | 0, s => ([], s)
  | n + 1, s =>
    let (p, s1) := issueEnter s
    let (ps, s2) := concurrentIssue n s1
    (p :: ps, s2)

/-- A load-callback error used to probe the load path of getAccessToken:
an arbitrary non-SDK JavaScript error. -/
def c9LoadError : JsErr := ⟨.generic, "disk read failed"⟩

/-- A concrete AuthService configuration whose load callback throws
c9LoadError. -/
def c9Config : AuthConfig :=
  { clientId := "id", clientSecret := "cs", username := "u", password := "p",
    baseUrl := "https://courier-api-sandbox.pathao.com",
    onTokenLoad := some (.error c9LoadError), onTokenUpdate := none }

/-- A concrete environment for the c9Config run (its network oracles are
never consulted: the load callback throws first). -/
def c9Env : AuthEnv :=
  { now := 0, refreshResult := .error ⟨.generic, "unused"⟩,
    issueResult := .error ⟨.generic, "unused"⟩ }

/-- A plain AuthService configuration with no persistence callbacks. -/
def sampleConfig : AuthConfig :=
  { clientId := "id", clientSecret := "cs", username := "u", password := "p",
    baseUrl := "https://courier-api-sandbox.pathao.com",
    onTokenLoad := none, onTokenUpdate := none }

/-- A grant response with the standard one-hour lifetime. -/
def sampleResp : TokenResponse :=
  { access_token := "tokA", refresh_token := "refA", expires_in := 3600 }

/-- An AuthService configuration whose persist callback throws a generic
error. -/
def sampleUpdConfig : AuthConfig :=
  { clientId := "id", clientSecret := "cs", username := "u", password := "p",
    baseUrl := "https://courier-api-sandbox.pathao.com",
    onTokenLoad := none,
    onTokenUpdate := some (.error ⟨.generic, "db write failed"⟩) }

/-- An environment whose issue stage succeeds with sampleResp. -/
def sampleIssueEnv : AuthEnv :=
  { now := 0, refreshResult := .error ⟨.generic, "unused"⟩,
    issueResult := .ok sampleResp }

/-- The order.created body of the end-to-end success scenario. -/
def sampleOrderBody : JsonVal :=
  .obj [("event", .str "order.created"), ("consignment_id", .str "DL1"),
        ("store_id", .num 1), ("delivery_fee", .num (8346 / 100)),
        ("updated_at", .str "t"), ("timestamp", .str "t")]

/-- Bitwise OR of naturals is zero exactly when both operands are zero. -/
theorem natOrEqZero (x y : Nat) : x ||| y = 0 ↔ x = 0 ∧ y = 0 := by
  constructor
  · intro h
    refine ⟨Nat.eq_of_testBit_eq fun i => ?_, Nat.eq_of_testBit_eq fun i => ?_⟩ <;>
      · have := congrArg (fun n => n.testBit i) h
        simp [Nat.testBit_or] at this
        simp [this]
  · rintro ⟨rfl, rfl⟩; rfl

/-- Characters with equal code points are equal. -/
theorem charToNatInj {a b : Char} (h : a.toNat = b.toNat) : a = b :=
  Char.eq_of_val_eq (UInt32.toNat.inj h)

/-- The XOR-accumulate loop yields zero on equal-length inputs exactly when
the two character lists coincide. -/
theorem xorAccum_eq_zero : ∀ (a b : List Char), a.length = b.length →
    (xorAccum a b = 0 ↔ a = b) := by
  intro a
  induction a with
  | nil =>
    intro b h
    cases b with
    | nil => simp [xorAccum]
    | cons y ys => simp at h
  | cons x xs ih =>
    intro b h
    cases b with
    | nil => simp at h
    | cons y ys =>
      simp only [List.length_cons, Nat.succ.injEq] at h
      rw [show xorAccum (x :: xs) (y :: ys) =
            ((x.toNat ^^^ y.toNat) ||| xorAccum xs ys) from rfl,
          natOrEqZero, Nat.xor_eq_zero, ih ys h, List.cons.injEq]
      constructor
      · rintro ⟨h1, h2⟩
        exact ⟨charToNatInj h1, h2⟩
      · rintro ⟨rfl, h2⟩
        exact ⟨rfl, h2⟩

/-- The constant-time comparison decides exactly string equality. -/
theorem timingSafeEqual_iff (a b : String) : timingSafeEqual a b = true ↔ a = b := by
  unfold timingSafeEqual
  by_cases h : a.length = b.length
  · simp only [h, bne_self_eq_false, Bool.false_eq_true, if_false, beq_iff_eq]
    have hlen : a.data.length = b.data.length := h
    rw [xorAccum_eq_zero a.data b.data hlen]
    constructor
    · intro hd
      cases a; cases b; exact congrArg String.mk hd
    · intro he; rw [he]
  · have hne : (a.length != b.length) = true := by simpa using h
    rw [if_pos hne]
    simp only [Bool.false_eq_true, false_iff]
    intro he; exact h (by rw [he])

/-- Unfolding of verifySignature with a present header value. -/
theorem verifySignature_some (sig secret : String) (p : JsonVal) :
    verifySignature (some sig) secret p =
      if sig = "" then
        Except.error ⟨.webhook, "Missing " ++ webhookSignatureHeader ++ " header"⟩
      else if secret = "" then
        Except.error ⟨.webhook, "Webhook secret is required"⟩
      else if !timingSafeEqual sig secret then
        Except.error ⟨.webhook, "Invalid webhook signature"⟩
      else Except.ok true := rfl

/-- C5: the constant-time comparison of the verifier (equal-length check followed
by a non-short-circuiting XOR-accumulate over character codes) is equivalent
to plain string equality: for non-empty signature and secret, verification
succeeds exactly when the signature string equals the secret string, and any
length mismatch between signature and secret fails regardless of content. -/
theorem verify_constant_time_equiv (sig secret : String) (payload : JsonVal) :
    (sig ≠ "" → secret ≠ "" →
      (verifySignature (some sig) secret payload = Except.ok true ↔ sig = secret))
    ∧ (sig.length ≠ secret.length →
       ∀ b, verifySignature (some sig) secret payload ≠ Except.ok b) := by
  constructor
  · intro hs hsec
    rw [verifySignature_some, if_neg hs, if_neg hsec]
    cases ht : timingSafeEqual sig secret with
    | true =>
      have heq := (timingSafeEqual_iff sig secret).mp ht
      simp [ht, heq]
    | false =>
      simp only [ht, Bool.not_false, if_true]
      constructor
      · intro h; exact absurd h (by simp)
      · intro heq
        have : timingSafeEqual sig secret = true :=
          (timingSafeEqual_iff sig secret).mpr heq
        rw [this] at ht; cases ht
  · intro hlen b
    rw [verifySignature_some]
    by_cases hs : sig = ""
    · rw [if_pos hs]; simp
    · rw [if_neg hs]
      by_cases hsec : secret = ""
      · rw [if_pos hsec]; simp
      · rw [if_neg hsec]
        have ht : timingSafeEqual sig secret = false := by
          unfold timingSafeEqual
          rw [if_pos (by simpa using hlen)]
        simp [ht]

/-- C5 witness: equal non-empty strings verify; a length mismatch never
verifies. -/
theorem verify_constant_time_equiv_witness :
    verifySignature (some "hunter2xx") "hunter2xx" JsonVal.null = Except.ok true ∧
      ∀ b, verifySignature (some "short") "longsecret" JsonVal.null ≠ Except.ok b :=
  ⟨((verify_constant_time_equiv "hunter2xx" "hunter2xx" JsonVal.null).1
      (by decide) (by decide)).mpr rfl,
   (verify_constant_time_equiv "short" "longsecret" JsonVal.null).2 (by decide)⟩

/-- C10: the outcome of verifySignature is independent of the payload
argument: under the placeholder scheme the payload is never inspected, so
any two payloads give identical results (same value or same error). -/
theorem verify_payload_independent (sig : Option String) (secret : String)
    (p1 p2 : JsonVal) :
    verifySignature sig secret p1 = verifySignature sig secret p2 := rfl

/-- C6: an object whose event field is a string outside the recognized
table is rejected with a webhook error whose message contains the
unrecognized event string (the falsy empty string takes the
missing-field message, which contains the empty string trivially). -/
theorem parse_unknown_event_rejected
    (fields : List (String × JsonVal)) (s : String)
    (hget : getProp (JsonVal.obj fields) "event" = some (JsonVal.str s))
    (hmem : s ∉ webhookEventTypes) :
    ∃ e, parseWebhookPayload (JsonVal.obj fields) = Except.error e ∧
      e.kind = ErrKind.webhook ∧
      ∃ pre post, e.message = pre ++ s ++ post := by
  by_cases hs : s = ""
  · subst hs
    refine ⟨⟨ErrKind.webhook, "Invalid webhook payload: missing or invalid event field"⟩,
      ?_, rfl, "Invalid webhook payload: missing or invalid event field", "", rfl⟩
    simp [parseWebhookPayload, hget, jsFalsy, jsTypeofObject]
  · refine ⟨⟨ErrKind.webhook, "Unknown webhook event type: " ++ s⟩,
      ?_, rfl, "Unknown webhook event type: ", "", ?_⟩
    · simp [parseWebhookPayload, hget, jsFalsy, jsTypeofObject, hs, hmem]
    · show ("Unknown webhook event type: " ++ s) = "Unknown webhook event type: " ++ (s ++ "")
      rw [String.append_empty]

/-- C6 witness: the concrete unknown discriminator named by the spec. -/
theorem parse_unknown_event_rejected_witness :
    ∃ e, parseWebhookPayload
        (JsonVal.obj [("event", JsonVal.str "order.nonexistent")]) = Except.error e ∧
      e.kind = ErrKind.webhook ∧
      ∃ pre post, e.message = pre ++ "order.nonexistent" ++ post :=
  parse_unknown_event_rejected [("event", JsonVal.str "order.nonexistent")]
    "order.nonexistent" rfl (by decide)

/-- C7: an object whose event field is one of the 21 recognized
discriminators parses to the input itself, unchanged; consequently parsing
is idempotent: feeding a successful parse result back into the parser
returns it unchanged again. -/
theorem parse_recognized_identity_idempotent
    (fields : List (String × JsonVal)) (s : String)
    (hget : getProp (JsonVal.obj fields) "event" = some (JsonVal.str s))
    (hmem : s ∈ webhookEventTypes) :
    parseWebhookPayload (JsonVal.obj fields) = Except.ok (JsonVal.obj fields) ∧
    ∀ p, parseWebhookPayload (JsonVal.obj fields) = Except.ok p →
      parseWebhookPayload p = Except.ok p := by
  have hs : s ≠ "" := by rintro rfl; exact absurd hmem (by decide)
  have h1 : parseWebhookPayload (JsonVal.obj fields) = Except.ok (JsonVal.obj fields) := by
    simp [parseWebhookPayload, hget, jsFalsy, jsTypeofObject, hs, hmem]
  refine ⟨h1, ?_⟩
  intro p hp
  rw [h1] at hp
  injection hp with he
  rw [← he]
  exact h1

/-- C7 witness: a concrete recognized payload parses to itself and reparses
to itself. -/
theorem parse_recognized_identity_idempotent_witness :
    parseWebhookPayload (JsonVal.obj [("event", JsonVal.str "order.delivered"),
        ("consignment_id", JsonVal.str "DL1")]) =
      Except.ok (JsonVal.obj [("event", JsonVal.str "order.delivered"),
        ("consignment_id", JsonVal.str "DL1")]) ∧
    ∀ p, parseWebhookPayload (JsonVal.obj [("event", JsonVal.str "order.delivered"),
        ("consignment_id", JsonVal.str "DL1")]) = Except.ok p →
      parseWebhookPayload p = Except.ok p :=
  parse_recognized_identity_idempotent
    [("event", JsonVal.str "order.delivered"), ("consignment_id", JsonVal.str "DL1")]
    "order.delivered" rfl (by decide)

/-- Every recognized discriminator has a specific channel. -/
theorem specificChannel_covers :
    webhookEventTypes.all (fun s => (specificChannel s).isSome) = true := rfl

/-- The specific channel of a recognized discriminator exists. -/
theorem specificChannel_isSome (s : String) (h : s ∈ webhookEventTypes) :
    (specificChannel s).isSome = true := by
  have := List.all_eq_true.mp specificChannel_covers s h
  simpa using this

/-- Inversion of a successful parse: the result is the input itself, and the
input carries a recognized string discriminator in its event field. -/
theorem parse_ok_inversion (body p : JsonVal)
    (h : parseWebhookPayload body = Except.ok p) :
    p = body ∧ ∃ s, getProp body "event" = some (JsonVal.str s) ∧
      s ∈ webhookEventTypes := by
  unfold parseWebhookPayload at h
  split at h
  · exact absurd h (by simp)
  · split at h
    · exact absurd h (by simp)
    · rename_i ev heq
      split at h
      · exact absurd h (by simp)
      · split at h
        · rename_i s hnf
          split at h
          · rename_i hm
            injection h with he
            exact ⟨he.symm, s, heq, hm⟩
          · exact absurd h (by simp)
        · exact absurd h (by simp)

/-- C3: every pipeline failure (verification or parsing) is caught by
handle, emitted exactly once on the dedicated error channel with no other
emission, and converted into an error-status result carrying the message of that
error — handle itself is a total function and never propagates the
error; in particular an absent signature header yields the
missing-header message with one error emission and no wildcard or
discriminator emission. -/
theorem handle_error_conversion :
    (∀ (secret : String) (body : JsonVal) (sig : Option String) (e : JsErr),
       verifySignature sig secret body = Except.error e ∨
         (verifySignature sig secret body = Except.ok true ∧
          parseWebhookPayload body = Except.error e) →
       handle secret body sig =
         (WebhookResponse.error e.message, [Emission.errObj errorChannel e]))
    ∧ (∀ (secret : String) (body : JsonVal),
       handle secret body none =
         (WebhookResponse.error "Missing X-PATHAO-Signature header",
          [Emission.errObj errorChannel
            ⟨ErrKind.webhook, "Missing X-PATHAO-Signature header"⟩])) := by
  constructor
  · rintro secret body sig e (hv | ⟨hv, hp⟩)
    · simp [handle, hv]
    · simp [handle, hv, hp]
  · intro secret body
    rfl

/-- C3 witness: a bad signature is converted to an error result with a
single error-channel emission. -/
theorem handle_error_conversion_witness :
    handle "topsecret" (JsonVal.obj [("event", JsonVal.str "order.created")])
        (some "wrong!!!!") =
      (WebhookResponse.error "Invalid webhook signature",
       [Emission.errObj errorChannel ⟨ErrKind.webhook, "Invalid webhook signature"⟩]) :=
  handle_error_conversion.1 "topsecret"
    (JsonVal.obj [("event", JsonVal.str "order.created")]) (some "wrong!!!!")
    ⟨ErrKind.webhook, "Invalid webhook signature"⟩ (Or.inl rfl)

/-- C4: when verification and parsing both succeed, handle returns the
success result and produces exactly two emissions, in order: the wildcard
channel first, then the specific discriminator channel of the payload, both
carrying the same payload object; the emission list is produced only on
this path, after verification and classification. -/
theorem handle_success_emission_order
    (secret : String) (body : JsonVal) (sig : Option String) (p : JsonVal)
    (hv : verifySignature sig secret body = Except.ok true)
    (hp : parseWebhookPayload body = Except.ok p) :
    ∃ ev ch, getProp p "event" = some (JsonVal.str ev) ∧
      specificChannel ev = some ch ∧
      handle secret body sig =
        (WebhookResponse.success,
         [Emission.payload wildcardChannel p, Emission.payload ch p]) := by
  obtain ⟨rfl, s, hg, hm⟩ := parse_ok_inversion body p hp
  obtain ⟨ch, hch⟩ := Option.isSome_iff_exists.mp (specificChannel_isSome s hm)
  refine ⟨s, ch, hg, hch, ?_⟩
  simp [handle, hv, hp, emitSpecificEvent, hg, hch]

/-- C4 witness: the end-to-end success scenario body with a matching
signature. -/
theorem handle_success_emission_order_witness :
    ∃ ev ch, getProp sampleOrderBody "event" = some (JsonVal.str ev) ∧
      specificChannel ev = some ch ∧
      handle "whsec" sampleOrderBody (some "whsec") =
        (WebhookResponse.success,
         [Emission.payload wildcardChannel sampleOrderBody,
          Emission.payload ch sampleOrderBody]) :=
  handle_success_emission_order "whsec" sampleOrderBody (some "whsec")
    sampleOrderBody rfl rfl

/-- C8: both framework adapters carry the integration-secret response
header (the configured value, or the default when none or an empty one is
configured) in the normal path and in the adapter-level exception path,
and set the status code exactly once: the code selected by the result of handle
in the normal path (200 for success, 400 for error) and 500 in the
exception path. -/
theorem adapters_status_and_integration_header
    (cfg : HandlerConfig) (req : HttpRequest) (e : JsErr) :
    RespAction.setHeader integrationSecretHeader (resolvedIntegrationSecret cfg)
        ∈ expressAdapter cfg req none
    ∧ RespAction.setHeader integrationSecretHeader (resolvedIntegrationSecret cfg)
        ∈ expressAdapter cfg req (some e)
    ∧ RespAction.headerChain integrationSecretHeader (resolvedIntegrationSecret cfg)
        ∈ fastifyAdapter cfg req none
    ∧ RespAction.headerChain integrationSecretHeader (resolvedIntegrationSecret cfg)
        ∈ fastifyAdapter cfg req (some e)
    ∧ statusesOf (expressAdapter cfg req none) =
        [statusCodeOf (handle cfg.webhookSecret req.body (extractSignature req)).1]
    ∧ statusesOf (fastifyAdapter cfg req none) =
        [statusCodeOf (handle cfg.webhookSecret req.body (extractSignature req)).1]
    ∧ statusesOf (expressAdapter cfg req (some e)) = [500]
    ∧ statusesOf (fastifyAdapter cfg req (some e)) = [500]
    ∧ statusCodeOf WebhookResponse.success = 200
    ∧ (∀ m, statusCodeOf (WebhookResponse.error m) = 400) := by
  refine ⟨?_, ?_, ?_, ?_, ?_, ?_, ?_, ?_, rfl, fun m => rfl⟩ <;>
    simp [expressAdapter, fastifyAdapter, statusesOf, List.filterMap]

/-- The body of issueToken performs exactly one network call per started
operation, in every outcome. -/
theorem issueRun_calls (cfg : AuthConfig) (env : AuthEnv)
    (st : Option StoredToken) : (issueRun cfg env st).2.2 = 1 := by
  unfold issueRun
  cases hi : env.issueResult with
  | error e => rfl
  | ok resp =>
    cases hu : cfg.onTokenUpdate with
    | none => rfl
    | some r =>
      cases r with
      | error e2 => rfl
      | ok u => rfl

/-- The body of refreshToken performs exactly one network call when a refresh
token is held, in every outcome. -/
theorem refreshRun_calls_of_refreshable (cfg : AuthConfig) (env : AuthEnv)
    (t : StoredToken) (h : t.refresh_token ≠ "") :
    (refreshRun cfg env (some t)).2.2 = 1 := by
  simp only [refreshRun]
  rw [if_neg h]
  cases hr : env.refreshResult with
  | error e => rfl
  | ok resp =>
    cases hu : cfg.onTokenUpdate with
    | none => rfl
    | some r =>
      cases r with
      | error e2 => rfl
      | ok u => rfl

/-- C1: a getAccessToken call made while the expiry of the held credential
is more than 5 minutes (300,000 ms) beyond the current time returns the
access token of that credential with zero network calls and an unchanged
credential; a credential built from a grant with expires_in = 3600 at time
T expires exactly at T + 3,600,000 ms; and a getAccessToken call on such a
credential at time T + 3,590,000 (inside the margin) performs at least one
network call instead of returning the cached token. -/
theorem getAccessToken_fresh_margin_spec :
    (∀ (cfg : AuthConfig) (env : AuthEnv) (t : StoredToken),
       t.expires_at > env.now + 300000 →
       getAccessTokenRun cfg (some t) env = ⟨Except.ok t.access_token, some t, 0⟩)
    ∧ (∀ (issuedAt : Int) (resp : TokenResponse), resp.expires_in = 3600 →
       (mkStoredToken issuedAt resp).expires_at = issuedAt + 3600000)
    ∧ (∀ (cfg : AuthConfig) (env : AuthEnv) (issuedAt : Int) (resp : TokenResponse),
       resp.expires_in = 3600 → env.now = issuedAt + 3590000 →
       1 ≤ (getAccessTokenRun cfg (some (mkStoredToken issuedAt resp)) env).networkCalls) := by
  refine ⟨?_, ?_, ?_⟩
  · intro cfg env t h
    have hf : tokenFresh (some t) env.now = true := by
      simp only [tokenFresh, decide_eq_true_eq]
      omega
    simp [getAccessTokenRun, hf, accessOf]
  · intro issuedAt resp h
    simp only [mkStoredToken]
    rw [h]
    omega
  · intro cfg env issuedAt resp h1 h2
    have hf : tokenFresh (some (mkStoredToken issuedAt resp)) env.now = false := by
      simp only [tokenFresh, mkStoredToken, decide_eq_false_iff_not, not_lt]
      rw [h1, h2]
      omega
    by_cases hr : hasRefreshToken (some (mkStoredToken issuedAt resp)) = true
    · have hrt : (mkStoredToken issuedAt resp).refresh_token ≠ "" := by
        simpa [hasRefreshToken] using hr
      rcases hrr : refreshRun cfg env (some (mkStoredToken issuedAt resp)) with ⟨res, st2, c⟩
      have hc : c = 1 := by
        have := refreshRun_calls_of_refreshable cfg env _ hrt
        rw [hrr] at this
        exact this
      rcases res with e | tok
      · rcases hir : issueRun cfg env st2 with ⟨res2, st3, c2⟩
        have hc2 : c2 = 1 := by
          have := issueRun_calls cfg env st2
          rw [hir] at this
          exact this
        rcases res2 with e2 | tok2 <;> simp [getAccessTokenRun, hf, hr, hrr, hir] <;> omega
      · simp [getAccessTokenRun, hf, hr, hrr]
        omega
    · have hr2 : hasRefreshToken (some (mkStoredToken issuedAt resp)) = false := by
        simpa using hr
      rcases hir : issueRun cfg env (some (mkStoredToken issuedAt resp)) with ⟨res2, st3, c2⟩
      have hc2 : c2 = 1 := by
        have := issueRun_calls cfg env (some (mkStoredToken issuedAt resp))
        rw [hir] at this
        exact this
      rcases res2 with e2 | tok2 <;> simp [getAccessTokenRun, hf, hr2, hir] <;> omega

/-- C1 witness: a fresh credential is returned with no network call; the
one-hour grant expires at issuance + 3,600,000 ms; a call 10 seconds inside
the margin makes a network call. -/
theorem getAccessToken_fresh_margin_spec_witness :
    getAccessTokenRun sampleConfig (some ⟨"tokA", "refA", 400001⟩)
        ⟨0, Except.ok sampleResp, Except.ok sampleResp⟩ =
      ⟨Except.ok "tokA", some ⟨"tokA", "refA", 400001⟩, 0⟩
    ∧ (mkStoredToken 0 sampleResp).expires_at = 0 + 3600000
    ∧ 1 ≤ (getAccessTokenRun sampleConfig (some (mkStoredToken 0 sampleResp))
        ⟨3590000, Except.ok sampleResp, Except.ok sampleResp⟩).networkCalls :=
  ⟨getAccessToken_fresh_margin_spec.1 sampleConfig
      ⟨0, Except.ok sampleResp, Except.ok sampleResp⟩ ⟨"tokA", "refA", 400001⟩ (by decide),
   getAccessToken_fresh_margin_spec.2.1 0 sampleResp rfl,
   getAccessToken_fresh_margin_spec.2.2 sampleConfig
      ⟨3590000, Except.ok sampleResp, Except.ok sampleResp⟩ 0 sampleResp rfl rfl⟩

/-- Callers arriving while an operation is in flight all receive the same
pending operation and the state does not change. -/
theorem concurrentIssue_pending (n : Nat) : ∀ (s : SvcState) (p : Nat),
    s.tokenPromise = some p → concurrentIssue n s = (List.replicate n p, s) := by
  induction n with
  | zero =>
    intro s p h
    simp [concurrentIssue]
  | succ m ih =>
    intro s p h
    have he : issueEnter s = (p, s) := by
      unfold issueEnter
      rw [h]
    simp [concurrentIssue, he, ih s p h, List.replicate]

/-- C2: N concurrent getAccessToken callers reaching issueToken against an
instance with no cached credential all await the same single in-flight
operation (so all resolve to the access token of that one operation), exactly
one issuance network call is started, and the shared slot — also consulted
by refreshToken — is cleared on settlement whether the operation succeeded
or failed. -/
theorem singleflight_issue_dedup :
    (∀ n : Nat, 0 < n →
       (concurrentIssue n initialSvcState).1 = List.replicate n 0 ∧
       (concurrentIssue n initialSvcState).2.networkCalls = 1 ∧
       (concurrentIssue n initialSvcState).2.tokenPromise = some 0)
    ∧ (∀ (s : SvcState) (outcome : Except JsErr StoredToken),
       (settleOp s outcome).tokenPromise = none)
    ∧ (∀ (s : SvcState) (p : Nat), s.tokenPromise = some p → issueEnter s = (p, s))
    ∧ (∀ (s : SvcState) (p : Nat) (t : StoredToken),
       s.tokenPromise = some p → s.token = some t → t.refresh_token ≠ "" →
       refreshEnter s = Except.ok (p, s)) := by
  refine ⟨?_, ?_, ?_, ?_⟩
  · intro n hn
    obtain ⟨m, rfl⟩ : ∃ m, n = m + 1 := ⟨n - 1, by omega⟩
    have h1 : issueEnter initialSvcState =
        (0, { token := none, tokenPromise := some 0, networkCalls := 1, nextId := 1 }) := rfl
    have h2 := concurrentIssue_pending m
      { token := none, tokenPromise := some 0, networkCalls := 1, nextId := 1 } 0 rfl
    refine ⟨?_, ?_, ?_⟩ <;> simp [concurrentIssue, h1, h2, List.replicate]
  · intro s outcome
    rfl
  · intro s p h
    unfold issueEnter
    rw [h]
  · intro s p t h ht hrt
    simp only [refreshEnter, ht]
    rw [if_neg hrt, h]

/-- C2 witness: three concurrent callers share operation 0 with one network
call; a failed settlement clears the slot; an issue or refresh entered
while operation 7 is in flight attaches to operation 7. -/
theorem singleflight_issue_dedup_witness :
    ((concurrentIssue 3 initialSvcState).1 = List.replicate 3 0 ∧
     (concurrentIssue 3 initialSvcState).2.networkCalls = 1 ∧
     (concurrentIssue 3 initialSvcState).2.tokenPromise = some 0)
    ∧ (settleOp ⟨none, some 0, 1, 1⟩
        (Except.error ⟨ErrKind.auth, "boom"⟩)).tokenPromise = none
    ∧ issueEnter ⟨some ⟨"a", "r", 5⟩, some 7, 1, 8⟩ =
        (7, ⟨some ⟨"a", "r", 5⟩, some 7, 1, 8⟩)
    ∧ refreshEnter ⟨some ⟨"a", "r", 5⟩, some 7, 1, 8⟩ =
        Except.ok (7, ⟨some ⟨"a", "r", 5⟩, some 7, 1, 8⟩) :=
  ⟨singleflight_issue_dedup.1 3 (by decide),
   singleflight_issue_dedup.2.1 ⟨none, some 0, 1, 1⟩ (Except.error ⟨ErrKind.auth, "boom"⟩),
   singleflight_issue_dedup.2.2.1 ⟨some ⟨"a", "r", 5⟩, some 7, 1, 8⟩ 7 rfl,
   singleflight_issue_dedup.2.2.2 ⟨some ⟨"a", "r", 5⟩, some 7, 1, 8⟩ 7 ⟨"a", "r", 5⟩
     rfl rfl (by decide)⟩

/-- C9 counterexample: with a load callback that throws a generic error and
no held credential, getAccessToken fails with that raw generic error — not
with an authentication-kind error as the claim states (the load-callback
call is outside every try block). -/
theorem persistence_load_error_not_wrapped :
    (getAccessTokenRun c9Config none c9Env).result = Except.error c9LoadError ∧
      c9LoadError.kind ≠ ErrKind.auth :=
  ⟨rfl, by decide⟩

/-- C9 amended: a throwing persist callback (onTokenUpdate) makes
getAccessToken fail with the error wrapped into the authentication kind,
but a throwing load callback (onTokenLoad) propagates unwrapped to the
caller. -/
theorem persistence_callback_error_semantics :
    (∀ (cfg : AuthConfig) (env : AuthEnv) (e : JsErr) (resp : TokenResponse),
       cfg.onTokenLoad = none → cfg.onTokenUpdate = some (Except.error e) →
       env.issueResult = Except.ok resp →
       (getAccessTokenRun cfg none env).result = Except.error (wrapAuth e) ∧
         (wrapAuth e).kind = ErrKind.auth)
    ∧ (∀ (cfg : AuthConfig) (env : AuthEnv) (e : JsErr),
       cfg.onTokenLoad = some (Except.error e) →
       (getAccessTokenRun cfg none env).result = Except.error e) := by
  constructor
  · intro cfg env e resp hload hupd hissue
    constructor
    · simp [getAccessTokenRun, hload, issueRun, hissue, hupd, tokenFresh,
        hasRefreshToken]
    · unfold wrapAuth
      by_cases hk : e.kind = ErrKind.auth
      · rw [if_pos hk]
        exact hk
      · rw [if_neg hk]
  · intro cfg env e hload
    simp [getAccessTokenRun, hload]

/-- C9 amended witness: a concrete throwing persist callback yields an
auth-kind failure; the concrete throwing load callback propagates its
generic error unchanged. -/
theorem persistence_callback_error_semantics_witness :
    ((getAccessTokenRun sampleUpdConfig none sampleIssueEnv).result =
        Except.error (wrapAuth ⟨ErrKind.generic, "db write failed"⟩) ∧
      (wrapAuth ⟨ErrKind.generic, "db write failed"⟩).kind = ErrKind.auth)
    ∧ (getAccessTokenRun c9Config none c9Env).result = Except.error c9LoadError :=
  ⟨persistence_callback_error_semantics.1 sampleUpdConfig sampleIssueEnv
      ⟨ErrKind.generic, "db write failed"⟩ sampleResp rfl rfl rfl,
   persistence_callback_error_semantics.2 c9Config c9Env c9LoadError rfl⟩
